import Mathlib

/-!
# Verification of `marko2html` (src/bin/marko2html.js)

A shallow embedding of the path-resolution and orchestration logic of the
`marko2html` command-line tool, together with theorems settling the claims
of its specification.

The program is a path-resolution layer around the external Marko template
engine.  Filesystem access (`fs.statSync`), stream creation
(`fs.createWriteStream`) and the actual rendering (`marko.load` /
`template.render`) are side effects; the embedding models them with
explicit oracles (a `String → Option Stats` map for `statSync`, a render
oracle returning an optional exception message) and an explicit trace of
effects, so the control flow of the script's main body becomes a pure
function.

The program manipulates paths through Node's posix `path` library
(`path.join`, `path.parse(...).name`); those two library functions are
embedded below at the character-list level, following Node's documented
posix semantics (segment normalization for `join`, base-name/extension
splitting for `parse`).
-/

namespace Marko2Html

/-! ## Model of Node's posix path functions -/

/-- A path segment: the characters between two '/' separators. -/
abbrev Seg := List Char

/-- Split a character list into its '/'-separated segments. -/
def splitSegs : List Char → List Seg
  | [] => [[]]
  | c :: cs =>
    let rest := splitSegs cs
    if c = '/' then [] :: rest
    else (c :: rest.headD []) :: rest.tail

/-- One step of Node's `normalizeString`: push one segment onto the
(reversed) stack of resolved segments, eliding empty and `.` segments and
resolving `..` against the stack.  `keepUp` is true for relative paths,
where unresolvable `..` segments are preserved. -/
def normStack (keepUp : Bool) (stack : List Seg) (seg : Seg) : List Seg :=
  if seg = [] ∨ seg = ['.'] then stack
  else if seg = ['.', '.'] then
    match stack with
    | [] => if keepUp then [seg] else []
    | top :: rest => if top = ['.', '.'] then seg :: stack else rest
  else seg :: stack

/-- Model of Node's posix `path.normalize`. -/
def normalizePath (p : String) : String :=
  let cs := p.data
  if cs.isEmpty then "." else
  let isAbs : Bool := cs.head? = some '/'
  let trailing : Bool := cs.getLast? = some '/'
  let stack := (splitSegs cs).foldl (normStack (!isAbs)) []
  let body := List.intercalate ['/'] stack.reverse
  if body.isEmpty then
    (if isAbs then "/" else if trailing then "./" else ".")
  else
    String.mk ((if isAbs then ['/'] else []) ++ body
      ++ (if trailing then ['/'] else []))

/-- Model of Node's posix `path.join` restricted to two arguments, the only
arity the program uses: empty arguments are skipped, the rest are joined
with '/' and normalized. -/
def pathJoin (a b : String) : String :=
  if a = "" ∧ b = "" then "."
  else if a = "" then normalizePath b
  else if b = "" then normalizePath a
  else normalizePath (a ++ "/" ++ b)

/-- The base element of a path (Node's `path.parse(...).base`): the
characters after the last '/', ignoring trailing slashes. -/
def parseBaseChars (cs : List Char) : List Char :=
  (((cs.reverse).dropWhile (· = '/')).takeWhile (· ≠ '/')).reverse

/-- The index of the last '.' in a character list, if any. -/
def lastDotIdx (cs : List Char) : Option Nat :=
  match cs.reverse.findIdx? (· = '.') with
  | none => none
  | some j => some (cs.length - 1 - j)

/-- Model of Node's `path.parse(...).name`: the base element with its
extension removed.  The extension starts at the last '.' of the base,
except when that dot is the leading character (dotfiles keep their name)
or the base is exactly `..`. -/
def parseName (p : String) : String :=
  let base := parseBaseChars p.data
  match lastDotIdx base with
  | none => String.mk base
  | some i =>
    if 0 < i ∧ base ≠ ['.', '.'] then String.mk (base.take i)
    else String.mk base

/-! ## Data model of the program -/

/-- Result of a successful `fs.statSync` call, as far as the program
inspects it. -/
structure Stats where
  isFile : Bool
  isDirectory : Bool
deriving DecidableEq, Repr

/-- The filesystem oracle: what `fs.statSync` returns for each path
(`none` models a throwing `statSync`, i.e. a path that cannot be
stat'ed). -/
abbrev FileSystem := String → Option Stats

/-- `PathInfo`: a snapshot of filesystem metadata for a path
(source: the `PathInfo` typedef of `src/bin/marko2html.js`). -/
structure PathInfo where
  path : String
  pathExists : Bool
  isFile : Bool
  isDir : Bool
deriving DecidableEq, Repr

/-- `getPathInfo(pathToCheck)` of `src/bin/marko2html.js`, with the
`fs.statSync` result made an explicit argument: on a throwing stat it
returns the all-false record, otherwise `exists` is true and
`isFile`/`isDir` are copied from the stats. -/
def getPathInfo (pathToCheck : String) (statResult : Option Stats) : PathInfo :=
  match statResult with
  | none => { path := pathToCheck, pathExists := false, isFile := false, isDir := false }
  | some pathStats =>
    { path := pathToCheck, pathExists := true
      isFile := pathStats.isFile, isDir := pathStats.isDirectory }

/-- `buildDataFilename(templateFilePath, dataPathInfo)` of
`src/bin/marko2html.js`: the data location itself when it is a file,
otherwise the data directory joined with the template's parsed name plus
`.json`. -/
def buildDataFilename (templateFilePath : String) (dataPathInfo : PathInfo) : String :=
  if dataPathInfo.isFile then dataPathInfo.path
  else pathJoin dataPathInfo.path (parseName templateFilePath ++ ".json")

/-- `OutputInfo` of `src/bin/marko2html.js`: the `--outfile` / `--outdir`
option values (`none` models an unset option). -/
structure OutputInfo where
  outfile : Option String
  outdir : Option String
deriving DecidableEq, Repr

/-- JavaScript truthiness of an optional string option (`undefined` and
the empty string are falsy). -/
def truthy : Option String → Bool
  | none => false
  | some s => !s.isEmpty

/-- The destination stream built by `buildOutputStream`: either
`process.stdout` or a write stream over a file path. -/
inductive OutputSink where
  | stdout
  | fileStream (path : String)
deriving DecidableEq, Repr

/-- `buildOutputStream(templateFilePath, outputPath)` of
`src/bin/marko2html.js`, as the sink it returns: `process.stdout` when
neither option is set, the `--outfile` path when that is set, otherwise
the `--outdir` directory joined with the template's parsed name plus
`.html`. -/
def buildOutputStream (templateFilePath : String) (outputPath : OutputInfo) :
    OutputSink :=
  if !truthy outputPath.outfile && !truthy outputPath.outdir then
    OutputSink.stdout
  else if truthy outputPath.outfile then
    OutputSink.fileStream (outputPath.outfile.getD "")
  else
    OutputSink.fileStream
      (pathJoin (outputPath.outdir.getD "") (parseName templateFilePath ++ ".html"))

/-! ## Effect trace of the main script -/

/-- Observable side effects of the script, in execution order:
`statRead` is an `fs.statSync` call inside `getPathInfo`; `createWrite`
is `fs.createWriteStream` (which creates or truncates the file);
`renderCall` is the `renderTemplate` invocation (template load, data load
and render into the sink); `errMsg` is a `console.error` diagnostic. -/
inductive Effect where
  | statRead (path : String)
  | createWrite (path : String)
  | renderCall (template data : String) (sink : OutputSink)
  | errMsg (msg : String)
deriving DecidableEq, Repr

/-- The render oracle: the behaviour of `renderTemplate`'s external parts
(`marko.load`, `require(dataPath)`, `template.render`) on a given template
and data path — `none` for success, `some msg` for a thrown exception with
message `msg`. -/
abbrev RenderOracle := String → String → Option String

/-- `processTemplateFile(templateFilePath, dataPathInfo, outputPath)` of
`src/bin/marko2html.js`: resolve the data path, build the output sink
(creating/truncating the output file if the sink is a file), then render.
Returns the effect trace and the exception propagated out of
`renderTemplate`, if any. -/
def processTemplateFile (templateFilePath : String) (dataPathInfo : PathInfo)
    (outputPath : OutputInfo) (render : RenderOracle) :
    List Effect × Option String :=
  let dataFilePath := buildDataFilename templateFilePath dataPathInfo
  let outputStream := buildOutputStream templateFilePath outputPath
  let sinkEffects : List Effect :=
    match outputStream with
    | OutputSink.stdout => []
    | OutputSink.fileStream p => [Effect.createWrite p]
  (sinkEffects ++ [Effect.renderCall templateFilePath dataFilePath outputStream],
   render templateFilePath dataFilePath)

/-- The command-line arguments after parsing: the two positional
arguments and the two options. -/
structure Args where
  templatePath : String
  dataPath : String
  outfile : Option String
  outdir : Option String
deriving DecidableEq, Repr

/-- The main body of `src/bin/marko2html.js` (everything after option
parsing), as a pure function from the arguments, the filesystem oracle and
the render oracle to the effect trace and the process exit code
(`process.exit(-1)` on every error path; falling off the end exits 0). -/
def mainProgram (args : Args) (fsys : FileSystem) (render : RenderOracle) :
    List Effect × Int :=
  let outputPath : OutputInfo := { outfile := args.outfile, outdir := args.outdir }
  if truthy outputPath.outfile && truthy outputPath.outdir then
    ([Effect.errMsg "Can only have one of --outfile or --outdir specified"], -1)
  else
    let outdirCheck : List Effect × Option Int :=
      if truthy outputPath.outdir then
        let d := outputPath.outdir.getD ""
        let outputPathInfo := getPathInfo d (fsys d)
        if !outputPathInfo.pathExists || !outputPathInfo.isDir then
          ([Effect.statRead d,
            Effect.errMsg ("Output directory '" ++ outputPathInfo.path ++ "' does not exist")],
           some (-1))
        else ([Effect.statRead d], none)
      else ([], none)
    match outdirCheck with
    | (eff, some code) => (eff, code)
    | (eff, none) =>
      let templatePathInfo := getPathInfo args.templatePath (fsys args.templatePath)
      let eff := eff ++ [Effect.statRead args.templatePath]
      if !templatePathInfo.pathExists then
        (eff ++ [Effect.errMsg
          ("Template path '" ++ templatePathInfo.path ++ "' does not exist")], -1)
      else if !templatePathInfo.isFile && !templatePathInfo.isDir then
        (eff ++ [Effect.errMsg
          ("Template path '" ++ templatePathInfo.path ++ "' is not a file or directory")], -1)
      else
        let dataPathInfo := getPathInfo args.dataPath (fsys args.dataPath)
        let eff := eff ++ [Effect.statRead args.dataPath]
        if !dataPathInfo.pathExists then
          (eff ++ [Effect.errMsg
            ("Data path '" ++ dataPathInfo.path ++ "' does not exist")], -1)
        else if !dataPathInfo.isFile && !dataPathInfo.isDir then
          (eff ++ [Effect.errMsg
            ("Data path '" ++ dataPathInfo.path ++ "' is not a file or directory")], -1)
        else if templatePathInfo.isFile then
          let step := processTemplateFile templatePathInfo.path dataPathInfo outputPath render
          match step.2 with
          | some msg => (eff ++ step.1 ++ [Effect.errMsg msg], -1)
          | none => (eff ++ step.1, 0)
        else if templatePathInfo.isDir then
          (eff ++ [Effect.errMsg
            ("Template path '" ++ templatePathInfo.path ++ "' is a directory")], -1)
        else
          (eff ++ [Effect.errMsg
            ("Template path '" ++ templatePathInfo.path ++ "' is not a file or directory")], -1)

/-! ## Predicates used by the statements -/

/-- A plain path segment: nonempty, not one of the special segments `.`
and `..`, and free of separators.  Such a segment passes through path
normalization unchanged. -/
def plainSeg (s : List Char) : Prop :=
  s ≠ [] ∧ s ≠ ['.'] ∧ s ≠ ['.', '.'] ∧ ('/' : Char) ∉ s

instance (s : List Char) : Decidable (plainSeg s) := by
  unfold plainSeg; infer_instance

/-- Effects that produce or destroy output: creating/truncating an output
file, or rendering into any sink (a file or standard output). -/
def writesOutput : Effect → Bool
  | Effect.createWrite _ => true
  | Effect.renderCall _ _ _ => true
  | _ => false

/-! ## Supporting lemmas about the path model -/

theorem takeWhile_append_of_all {α : Type _} {p : α → Bool} {l r : List α}
    (h : ∀ a ∈ l, p a = true) :
    (l ++ r).takeWhile p = l ++ r.takeWhile p := by
  induction l with
  | nil => rfl
  | cons a t ih =>
    have ha : p a = true := h a (List.mem_cons_self a t)
    have ht : ∀ x ∈ t, p x = true := fun x hx => h x (List.mem_cons_of_mem a hx)
    simp [List.takeWhile_cons, ha, ih ht]

theorem findIdx?_append_of_none {α : Type _} {p : α → Bool} {l r : List α}
    (h : ∀ a ∈ l, p a = false) :
    (l ++ r).findIdx? p = (r.findIdx? p).map (· + l.length) := by
  rw [List.findIdx?_append, List.findIdx?_eq_none_iff.mpr h]
  rfl

theorem splitSegs_no_sep {cs : List Char} (h : ('/' : Char) ∉ cs) :
    splitSegs cs = [cs] := by
  induction cs with
  | nil => rfl
  | cons c t ih =>
    have hc : ¬ c = '/' := fun e => h (e ▸ List.mem_cons_self c t)
    have ht : ('/' : Char) ∉ t := fun m => h (List.mem_cons_of_mem c m)
    simp [splitSegs, hc, ih ht]

theorem splitSegs_append {a b : List Char} (h : ('/' : Char) ∉ a) :
    splitSegs (a ++ '/' :: b) = a :: splitSegs b := by
  induction a with
  | nil => simp [splitSegs]
  | cons c t ih =>
    have hc : ¬ c = '/' := fun e => h (e ▸ List.mem_cons_self c t)
    have ht : ('/' : Char) ∉ t := fun m => h (List.mem_cons_of_mem c m)
    simp [splitSegs, hc, ih ht]

theorem parseBaseChars_append {a b : List Char} (hb : ('/' : Char) ∉ b)
    (hne : b ≠ []) :
    parseBaseChars (a ++ '/' :: b) = b := by
  unfold parseBaseChars
  have hrev : (a ++ '/' :: b).reverse = b.reverse ++ '/' :: a.reverse := by
    simp
  rw [hrev]
  obtain ⟨c, t, hct⟩ := List.exists_cons_of_ne_nil (List.reverse_ne_nil_iff.mpr hne)
  have hcb : c ∈ b := by
    have : c ∈ b.reverse := hct ▸ List.mem_cons_self c t
    exact List.mem_reverse.mp this
  have hcne : ¬ c = '/' := fun e => hb (e ▸ hcb)
  rw [hct, List.cons_append, List.dropWhile_cons, if_neg (by simp [hcne]),
    ← List.cons_append, ← hct]
  have hall : ∀ x ∈ b.reverse, (decide (x ≠ '/')) = true := by
    intro x hx
    have hxb : x ∈ b := List.mem_reverse.mp hx
    have hxne : ¬ x = '/' := fun e => hb (e ▸ hxb)
    simp [hxne]
  rw [takeWhile_append_of_all hall]
  simp [List.takeWhile_cons]

theorem lastDotIdx_of_ext {x s : List Char} (hs : ('.' : Char) ∉ s) :
    lastDotIdx (x ++ '.' :: s) = some x.length := by
  unfold lastDotIdx
  have hrev : (x ++ '.' :: s).reverse = s.reverse ++ '.' :: x.reverse := by
    simp
  have hnone : ∀ a ∈ s.reverse, (decide (a = '.')) = false := by
    intro a ha
    have hb : a ∈ s := List.mem_reverse.mp ha
    have : ¬ a = '.' := fun e => hs (e ▸ hb)
    simp [this]
  have hfind : List.findIdx? (fun a => decide (a = '.')) ('.' :: x.reverse)
      = some 0 := by
    simp [List.findIdx?]
  rw [hrev, findIdx?_append_of_none hnone, hfind]
  simp

theorem parseName_of_shape (a x s : String)
    (hx : ('/' : Char) ∉ x.data) (hxne : x.data ≠ [])
    (hs : ('/' : Char) ∉ s.data) (hsdot : ('.' : Char) ∉ s.data)
    (hsne : s.data ≠ []) :
    parseName (a ++ "/" ++ x ++ "." ++ s) = x := by
  unfold parseName
  have hdata : (a ++ "/" ++ x ++ "." ++ s).data
      = a.data ++ '/' :: (x.data ++ '.' :: s.data) := by
    simp [String.data_append]
  rw [hdata]
  have hbase : parseBaseChars (a.data ++ '/' :: (x.data ++ '.' :: s.data))
      = x.data ++ '.' :: s.data := by
    apply parseBaseChars_append
    · intro hmem
      rcases List.mem_append.mp hmem with h | h
      · exact hx h
      · rcases List.mem_cons.mp h with h | h
        · exact absurd h (by decide)
        · exact hs h
    · simp
  have hpos : 0 < x.data.length := List.length_pos.mpr hxne
  have hslen : 0 < s.data.length := List.length_pos.mpr hsne
  have hnd : x.data ++ '.' :: s.data ≠ ['.', '.'] := by
    intro h
    have hlen := congrArg List.length h
    rw [List.length_append, List.length_cons] at hlen
    have h2 : ([('.' : Char), '.']).length = 2 := rfl
    rw [h2] at hlen
    omega
  simp only [hbase, lastDotIdx_of_ext hsdot]
  rw [if_pos ⟨hpos, hnd⟩, List.take_left]

theorem normStack_plain (k : Bool) (st : List Seg) {s : Seg} (h : plainSeg s) :
    normStack k st s = s :: st := by
  obtain ⟨h1, h2, h3, _⟩ := h
  simp [normStack, h1, h2, h3]

theorem intercalate_pair (sep a b : List Char) :
    List.intercalate sep [a, b] = a ++ sep ++ b := by
  simp [List.intercalate, List.intersperse]

theorem pathJoin_plain {d f : String} (hd : plainSeg d.data) (hf : plainSeg f.data) :
    pathJoin d f = d ++ "/" ++ f := by
  have hdne : d ≠ "" := fun e => hd.1 (by simp [e])
  have hfne : f ≠ "" := fun e => hf.1 (by simp [e])
  have hdata : (d ++ "/" ++ f).data = d.data ++ '/' :: f.data := by
    simp [String.data_append]
  obtain ⟨c, t, hct⟩ := List.exists_cons_of_ne_nil hd.1
  have hcd : c ∈ d.data := hct ▸ List.mem_cons_self c t
  have hcne : ¬ c = '/' := fun e => hd.2.2.2 (e ▸ hcd)
  have h1 : (d.data ++ '/' :: f.data).isEmpty = false := by
    rw [hct]; rfl
  have h2 : (decide ((d.data ++ '/' :: f.data).head? = some '/')) = false := by
    apply decide_eq_false
    rw [hct, List.cons_append, List.head?_cons]
    simp [hcne]
  have h3 : (decide ((d.data ++ '/' :: f.data).getLast? = some '/')) = false := by
    apply decide_eq_false
    rw [List.getLast?_append_cons]
    obtain ⟨c2, t2, hct2⟩ := List.exists_cons_of_ne_nil hf.1
    rw [hct2, List.getLast?_cons_cons]
    intro h
    obtain ⟨hne2, he⟩ := List.mem_getLast?_eq_getLast (Option.mem_def.mpr h)
    have : ('/' : Char) ∈ f.data := by
      rw [hct2]; exact he ▸ List.getLast_mem hne2
    exact hf.2.2.2 this
  have h4 : splitSegs (d.data ++ '/' :: f.data) = [d.data, f.data] := by
    rw [splitSegs_append hd.2.2.2, splitSegs_no_sep hf.2.2.2]
  have h5 : normStack true [] d.data = [d.data] := normStack_plain true [] hd
  have h6 : normStack true [d.data] f.data = [f.data, d.data] :=
    normStack_plain true [d.data] hf
  have hgoal : d ++ "/" ++ f = String.mk (d.data ++ '/' :: f.data) := by
    rw [← hdata]
  unfold pathJoin normalizePath
  rw [if_neg (by rintro ⟨h, -⟩; exact hdne h), if_neg hdne, if_neg hfne]
  simp only [hdata, h1, Bool.false_eq_true, if_false, h2, h3, h4, Bool.not_false,
    List.foldl_cons, List.foldl_nil, h5, h6, List.reverse_cons, List.reverse_nil,
    List.nil_append, List.cons_append, intercalate_pair, List.append_assoc,
    List.singleton_append, List.append_nil]
  exact hgoal.symm

theorem getPathInfo_path (p : String) (st : Option Stats) :
    (getPathInfo p st).path = p := by
  cases st <;> rfl

theorem isEmpty_false_of_ne {s : String} (h : s ≠ "") : s.isEmpty = false :=
  Bool.eq_false_iff.mpr (fun hi => h ((String.isEmpty_iff s).mp hi))

theorem data_ne_nil_of_ne {s : String} (h : s ≠ "") : s.data ≠ [] :=
  fun e => h (String.ext (e.trans rfl))

theorem plainSeg_append_of_len {x e : String} (hx : ('/' : Char) ∉ x.data)
    (hxd : x.data ≠ []) (he : ('/' : Char) ∉ e.data) (hlen : 2 ≤ e.data.length) :
    plainSeg (x ++ e).data := by
  have hdata : (x ++ e).data = x.data ++ e.data := String.data_append x e
  have hxlen : 0 < x.data.length := List.length_pos.mpr hxd
  refine ⟨?_, ?_, ?_, ?_⟩
  · rw [hdata]
    intro h
    have hl := congrArg List.length h
    rw [List.length_append] at hl
    simp only [List.length_nil] at hl
    omega
  · rw [hdata]
    intro h
    have hl := congrArg List.length h
    rw [List.length_append] at hl
    have h1 : ([('.' : Char)]).length = 1 := rfl
    rw [h1] at hl
    omega
  · rw [hdata]
    intro h
    have hl := congrArg List.length h
    rw [List.length_append] at hl
    have h2 : ([('.' : Char), '.']).length = 2 := rfl
    rw [h2] at hl
    omega
  · rw [hdata]
    intro hmem
    rcases List.mem_append.mp hmem with h | h
    · exact hx h
    · exact he h

/-! ## Claim C2: output-path mirroring -/

/-- Claim C2, counterexample: for the template `base/sub/x.tmpl` with
output directory `out`, the claimed output path `out/sub/x.html` is NOT
what `buildOutputStream` computes (the relative directory `sub` is
dropped). -/
theorem output_mirroring_counterexample :
    buildOutputStream "base/sub/x.tmpl" { outfile := none, outdir := some "out" }
      ≠ OutputSink.fileStream "out/sub/x.html" := by
  decide

/-- Claim C2, amended: for every template path of the form
`base/sub/x.tmpl` and output directory `out`, the resolved output path is
`out/x.html` — the output directory joined with the template's base name
plus `.html`; the template's directory relative to the base is not
preserved. -/
theorem output_path_uses_base_name_only (base sub x out : String)
    (hx : ('/' : Char) ∉ x.data) (hxne : x ≠ "") (hout : plainSeg out.data) :
    buildOutputStream (base ++ "/" ++ sub ++ "/" ++ x ++ ".tmpl")
      { outfile := none, outdir := some out }
      = OutputSink.fileStream (out ++ "/" ++ (x ++ ".html")) := by
  have houtne : out ≠ "" := fun e => hout.1 (by simp [e])
  have hxd : x.data ≠ [] := data_ne_nil_of_ne hxne
  have hshape : base ++ "/" ++ sub ++ "/" ++ x ++ ".tmpl"
      = base ++ "/" ++ sub ++ "/" ++ x ++ "." ++ "tmpl" := by
    rw [String.append_assoc (base ++ "/" ++ sub ++ "/" ++ x),
      show ("." : String) ++ "tmpl" = ".tmpl" from rfl]
  have hname : parseName (base ++ "/" ++ sub ++ "/" ++ x ++ "." ++ "tmpl") = x := by
    have := parseName_of_shape (base ++ "/" ++ sub) x "tmpl" hx hxd
      (by decide) (by decide) (by decide)
    simpa [String.append_assoc] using this
  have hplain : plainSeg (x ++ ".html").data :=
    plainSeg_append_of_len hx hxd (by decide) (by decide)
  rw [hshape]
  show buildOutputStream _ _ = _
  unfold buildOutputStream
  rw [if_neg (by simp [truthy, isEmpty_false_of_ne houtne]),
    if_neg (by simp [truthy])]
  simp only [truthy, Option.getD_some, hname]
  rw [pathJoin_plain hout hplain]

/-- Concrete instance of `output_path_uses_base_name_only` at the
specification's own example (`base/sub/x.tmpl` with outdir `out`). -/
theorem output_path_uses_base_name_only_witness :
    buildOutputStream ("base" ++ "/" ++ "sub" ++ "/" ++ "x" ++ ".tmpl")
      { outfile := none, outdir := some "out" }
      = OutputSink.fileStream ("out" ++ "/" ++ ("x" ++ ".html")) :=
  output_path_uses_base_name_only "base" "sub" "x" "out"
    (by decide) (by decide) (by decide)

/-! ## Claim C3: data-path mirroring -/

/-- Claim C3, counterexample: for the template `base/sub/x.tmpl` with data
directory `data`, the claimed data path `data/sub/x` is NOT what
`buildDataFilename` computes (the relative directory is dropped and a
`.json` extension is appended). -/
theorem data_mirroring_counterexample :
    buildDataFilename "base/sub/x.tmpl"
      { path := "data", pathExists := true, isFile := false, isDir := true }
      ≠ "data/sub/x" := by
  decide

/-- Claim C3, amended: for every template path of the form
`base/sub/x.tmpl`, when the data location is a directory `dat`, the
resolved data path is `dat/x.json` — the data directory joined with the
template's base name with a `.json` extension appended by this resolution
step; the template's directory relative to the base is not preserved. -/
theorem data_path_uses_base_name_and_json (base sub x dat : String)
    (hx : ('/' : Char) ∉ x.data) (hxne : x ≠ "") (hdat : plainSeg dat.data) :
    buildDataFilename (base ++ "/" ++ sub ++ "/" ++ x ++ ".tmpl")
      { path := dat, pathExists := true, isFile := false, isDir := true }
      = dat ++ "/" ++ (x ++ ".json") := by
  have hxd : x.data ≠ [] := data_ne_nil_of_ne hxne
  have hshape : base ++ "/" ++ sub ++ "/" ++ x ++ ".tmpl"
      = base ++ "/" ++ sub ++ "/" ++ x ++ "." ++ "tmpl" := by
    rw [String.append_assoc (base ++ "/" ++ sub ++ "/" ++ x),
      show ("." : String) ++ "tmpl" = ".tmpl" from rfl]
  have hname : parseName (base ++ "/" ++ sub ++ "/" ++ x ++ "." ++ "tmpl") = x := by
    have := parseName_of_shape (base ++ "/" ++ sub) x "tmpl" hx hxd
      (by decide) (by decide) (by decide)
    simpa [String.append_assoc] using this
  have hplain : plainSeg (x ++ ".json").data :=
    plainSeg_append_of_len hx hxd (by decide) (by decide)
  rw [hshape]
  unfold buildDataFilename
  rw [if_neg (by simp)]
  simp only [hname]
  exact pathJoin_plain hdat hplain

/-- Concrete instance of `data_path_uses_base_name_and_json`. -/
theorem data_path_uses_base_name_and_json_witness :
    buildDataFilename ("base" ++ "/" ++ "sub" ++ "/" ++ "x" ++ ".tmpl")
      { path := "data", pathExists := true, isFile := false, isDir := true }
      = "data" ++ "/" ++ ("x" ++ ".json") :=
  data_path_uses_base_name_and_json "base" "sub" "x" "data"
    (by decide) (by decide) (by decide)

/-! ## Claim C4: a single data file is shared by all templates -/

/-- Claim C4: when the data location refers to a single file, the resolved
data path is exactly that file path, independent of which template is
being processed. -/
theorem data_file_is_shared (t u : String) (dataPathInfo : PathInfo)
    (h : dataPathInfo.isFile = true) :
    buildDataFilename t dataPathInfo = dataPathInfo.path ∧
    buildDataFilename t dataPathInfo = buildDataFilename u dataPathInfo := by
  unfold buildDataFilename
  rw [if_pos h, if_pos h]
  exact ⟨rfl, rfl⟩

/-- Concrete instance of `data_file_is_shared`. -/
theorem data_file_is_shared_witness :
    buildDataFilename "a.tmpl"
      { path := "d.json", pathExists := true, isFile := true, isDir := false }
      = "d.json" ∧
    buildDataFilename "a.tmpl"
      { path := "d.json", pathExists := true, isFile := true, isDir := false }
      = buildDataFilename "b.tmpl"
      { path := "d.json", pathExists := true, isFile := true, isDir := false } :=
  data_file_is_shared "a.tmpl" "b.tmpl" _ rfl

/-! ## Claim C8: no configured output means standard output -/

/-- Claim C8: when neither an output file nor an output directory is
configured, `buildOutputStream` yields the standard-output sink, and the
render step of `processTemplateFile` writes to standard output (no file
stream is created). -/
theorem no_output_options_means_stdout (t : String) (dataPathInfo : PathInfo)
    (render : RenderOracle) :
    buildOutputStream t { outfile := none, outdir := none } = OutputSink.stdout ∧
    (processTemplateFile t dataPathInfo { outfile := none, outdir := none } render).1
      = [Effect.renderCall t (buildDataFilename t dataPathInfo) OutputSink.stdout] :=
  ⟨rfl, rfl⟩

/-! ## Claim C9: path resolution is pure and deterministic -/

/-- Claim C9: data-path and output-path resolution are pure functions of
their inputs — resolving twice for the same (template path, data
location, output configuration) yields identical results. -/
theorem path_resolution_is_deterministic (t : String) (dataPathInfo : PathInfo)
    (outputPath : OutputInfo) :
    buildDataFilename t dataPathInfo = buildDataFilename t dataPathInfo ∧
    buildOutputStream t outputPath = buildOutputStream t outputPath :=
  ⟨rfl, rfl⟩

/-! ## Claim C10: getPathInfo is total and internally consistent -/

/-- Claim C10: `getPathInfo` returns a `PathInfo` for every input (it is a
total function of the path and the stat outcome); whenever the result is
marked a file or a directory it is also marked existing, and a failing
stat yields the all-false record. -/
theorem getPathInfo_total_and_consistent (p : String) (st : Option Stats) :
    ((getPathInfo p st).isFile = true ∨ (getPathInfo p st).isDir = true →
      (getPathInfo p st).pathExists = true) ∧
    getPathInfo p none
      = { path := p, pathExists := false, isFile := false, isDir := false } := by
  refine ⟨?_, rfl⟩
  cases st with
  | none => rintro (h | h) <;> simp [getPathInfo] at h
  | some s => intro _; rfl

/-- Concrete instance of `getPathInfo_total_and_consistent`. -/
theorem getPathInfo_total_and_consistent_witness :
    (getPathInfo "a" (some { isFile := true, isDirectory := false })).pathExists
      = true ∧
    getPathInfo "a" none
      = { path := "a", pathExists := false, isFile := false, isDir := false } :=
  ⟨(getPathInfo_total_and_consistent "a"
      (some { isFile := true, isDirectory := false })).1 (Or.inl rfl),
   (getPathInfo_total_and_consistent "a" none).2⟩

/-! ## Claim C5: conflicting output options -/

/-- Claim C5: when both `--outfile` and `--outdir` are supplied, the
process exits with a non-zero status after a single diagnostic message,
before any filesystem read, write or creation: the complete effect trace
is just the `console.error` call. -/
theorem conflicting_output_options_exit_first (args : Args) (fsys : FileSystem)
    (render : RenderOracle) (hf : truthy args.outfile = true)
    (hd : truthy args.outdir = true) :
    (mainProgram args fsys render).2 ≠ 0 ∧
    (mainProgram args fsys render).1 =
      [Effect.errMsg "Can only have one of --outfile or --outdir specified"] := by
  constructor
  · simp [mainProgram, hf, hd]
  · simp [mainProgram, hf, hd]

/-- Concrete instance of `conflicting_output_options_exit_first`. -/
theorem conflicting_output_options_exit_first_witness :
    (mainProgram ⟨"t.marko", "t.json", some "a.html", some "b"⟩
      (fun _ => none) (fun _ _ => none)).2 ≠ 0 ∧
    (mainProgram ⟨"t.marko", "t.json", some "a.html", some "b"⟩
      (fun _ => none) (fun _ _ => none)).1 =
      [Effect.errMsg "Can only have one of --outfile or --outdir specified"] :=
  conflicting_output_options_exit_first _ _ _ (by decide) (by decide)

/-! ## Claim C6: non-existent template path -/

/-- Claim C6: whenever the template argument path cannot be stat'ed (it
does not exist), the process exits non-zero and its effect trace contains
no output-producing effect: no file is created or truncated and nothing is
rendered to standard output. -/
theorem missing_template_writes_nothing (args : Args) (fsys : FileSystem)
    (render : RenderOracle) (h : fsys args.templatePath = none) :
    (mainProgram args fsys render).2 ≠ 0 ∧
    ∀ e ∈ (mainProgram args fsys render).1, writesOutput e = false := by
  have hti : getPathInfo args.templatePath (fsys args.templatePath)
      = { path := args.templatePath, pathExists := false, isFile := false,
          isDir := false } := by
    rw [h]
    rfl
  by_cases hc1 : (truthy args.outfile && truthy args.outdir) = true
  · constructor
    · simp [mainProgram, hc1]
    · intro e he
      simp [mainProgram, hc1] at he
      simp [he, writesOutput]
  · by_cases hc2 : truthy args.outdir = true
    · have ha : truthy args.outfile = false := by
        cases hof : truthy args.outfile
        · rfl
        · exact absurd (by rw [hof, hc2]; rfl) hc1
      by_cases hc3 :
        (!(getPathInfo (args.outdir.getD "") (fsys (args.outdir.getD ""))).pathExists
          || !(getPathInfo (args.outdir.getD "") (fsys (args.outdir.getD ""))).isDir)
          = true
      · constructor
        · simp [mainProgram, ha, hc2, hc3]
        · intro e he
          simp [mainProgram, ha, hc2, hc3] at he
          rcases he with he | he <;> simp [he, writesOutput]
      · constructor
        · simp [mainProgram, ha, hc2, hc3, hti]
        · intro e he
          simp [mainProgram, ha, hc2, hc3, hti] at he
          rcases he with he | he | he <;> simp [he, writesOutput]
    · constructor
      · simp [mainProgram, hc1, hc2, hti]
      · intro e he
        simp [mainProgram, hc1, hc2, hti] at he
        rcases he with he | he <;> simp [he, writesOutput]

/-- Concrete instance of `missing_template_writes_nothing`. -/
theorem missing_template_writes_nothing_witness :
    (mainProgram ⟨"absent.marko", "d.json", none, none⟩
      (fun _ => none) (fun _ _ => none)).2 ≠ 0 :=
  (missing_template_writes_nothing ⟨"absent.marko", "d.json", none, none⟩
    (fun _ => none) (fun _ _ => none) rfl).1

/-! ## Claim C7: single-file mode errors are fatal -/

/-- Claim C7: in single-file mode — the template argument is a file and
the pre-flight checks pass, under ANY output configuration (stdout
default, `--outfile`, or `--outdir`) and any kind of data location (file
or directory) — an exception thrown during template loading, data loading
or rendering is fatal: its message is reported via `console.error` and
the process exits non-zero.  Moreover, when an output file is configured
it has already been created/truncated by `createWriteStream` before the
failing render, so a failed render can leave a truncated output file. -/
theorem single_file_render_error_is_fatal (args : Args) (fsys : FileSystem)
    (render : RenderOracle) (msg : String)
    (hnc : ¬ (truthy args.outfile = true ∧ truthy args.outdir = true))
    (hdo : truthy args.outdir = true →
      (getPathInfo (args.outdir.getD "") (fsys (args.outdir.getD ""))).pathExists
        = true ∧
      (getPathInfo (args.outdir.getD "") (fsys (args.outdir.getD ""))).isDir = true)
    (hte : (getPathInfo args.templatePath (fsys args.templatePath)).pathExists
      = true)
    (htf : (getPathInfo args.templatePath (fsys args.templatePath)).isFile = true)
    (hde : (getPathInfo args.dataPath (fsys args.dataPath)).pathExists = true)
    (hdk : (getPathInfo args.dataPath (fsys args.dataPath)).isFile = true ∨
      (getPathInfo args.dataPath (fsys args.dataPath)).isDir = true)
    (hr : render args.templatePath
        (buildDataFilename args.templatePath
          (getPathInfo args.dataPath (fsys args.dataPath))) = some msg) :
    (mainProgram args fsys render).2 ≠ 0 ∧
    Effect.errMsg msg ∈ (mainProgram args fsys render).1 ∧
    (truthy args.outfile = true →
      Effect.createWrite (args.outfile.getD "")
        ∈ (mainProgram args fsys render).1) := by
  by_cases hc2 : truthy args.outdir = true
  · have ha : truthy args.outfile = false := by
      cases hof : truthy args.outfile
      · rfl
      · exact absurd ⟨hof, hc2⟩ hnc
    obtain ⟨ho1, ho2⟩ := hdo hc2
    refine ⟨?_, ?_, fun houtf => absurd houtf (by simp [ha])⟩ <;>
      rcases hdk with hd1 | hd1 <;>
        simp [mainProgram, processTemplateFile, ha, hc2, ho1, ho2, hte, htf,
          hde, hd1, getPathInfo_path, hr]
  · refine ⟨?_, ?_, fun houtf => ?_⟩ <;>
      rcases hdk with hd1 | hd1 <;>
        simp [mainProgram, processTemplateFile, buildOutputStream, hc2, hte,
          htf, hde, hd1, getPathInfo_path, hr, *]

/-- Concrete instance of `single_file_render_error_is_fatal`: a throwing
render (e.g. a malformed data file) under `--outfile out.html`. -/
theorem single_file_render_error_is_fatal_witness :
    (mainProgram ⟨"t.marko", "t.json", some "out.html", none⟩
      (fun p => if p = "t.marko" then some ⟨true, false⟩
        else if p = "t.json" then some ⟨true, false⟩ else none)
      (fun _ _ => some "Unexpected token in JSON")).2 ≠ 0 ∧
    Effect.errMsg "Unexpected token in JSON"
      ∈ (mainProgram ⟨"t.marko", "t.json", some "out.html", none⟩
        (fun p => if p = "t.marko" then some ⟨true, false⟩
          else if p = "t.json" then some ⟨true, false⟩ else none)
        (fun _ _ => some "Unexpected token in JSON")).1 ∧
    Effect.createWrite "out.html"
      ∈ (mainProgram ⟨"t.marko", "t.json", some "out.html", none⟩
        (fun p => if p = "t.marko" then some ⟨true, false⟩
          else if p = "t.json" then some ⟨true, false⟩ else none)
        (fun _ _ => some "Unexpected token in JSON")).1 :=
  ⟨(single_file_render_error_is_fatal _ _ _ "Unexpected token in JSON"
      (by decide) (by decide) (by decide) (by decide) (by decide) (by decide)
      rfl).1,
   (single_file_render_error_is_fatal _ _ _ "Unexpected token in JSON"
      (by decide) (by decide) (by decide) (by decide) (by decide) (by decide)
      rfl).2.1,
   (single_file_render_error_is_fatal _ _ _ "Unexpected token in JSON"
      (by decide) (by decide) (by decide) (by decide) (by decide) (by decide)
      rfl).2.2 (by decide)⟩

/-! ## Claim C1: no batch mode exists -/

/-- Claim C1 (code bug): the specification and the repository README
promise batch processing of a directory of templates with per-file
isolation; the code instead rejects a directory template argument.  On a
well-formed batch-shaped invocation (template directory, data location
and output directory all existing), the embedded main program prints the
"is a directory" diagnostic, exits non-zero, and performs no render
call at all. -/
theorem template_directory_is_rejected (args : Args) (fsys : FileSystem)
    (render : RenderOracle) (od : String)
    (hof : args.outfile = none) (hod : args.outdir = some od) (hodne : od ≠ "")
    (hfo : fsys od = some { isFile := false, isDirectory := true })
    (hft : fsys args.templatePath = some { isFile := false, isDirectory := true })
    (hfd : fsys args.dataPath = some { isFile := true, isDirectory := false }) :
    (mainProgram args fsys render).2 ≠ 0 ∧
    Effect.errMsg ("Template path '" ++ args.templatePath ++ "' is a directory")
      ∈ (mainProgram args fsys render).1 ∧
    ∀ t dp sink, Effect.renderCall t dp sink ∉ (mainProgram args fsys render).1 := by
  have hoe : od.isEmpty = false := isEmpty_false_of_ne hodne
  refine ⟨?_, ?_, fun t dp sink => ?_⟩ <;>
    simp [mainProgram, hof, hod, hfo, hft, hfd, truthy, getPathInfo, hoe]

/-- Concrete instance of `template_directory_is_rejected`: the README's
own batch example `marko2html mytemplates/ templatedata/ -d generated`
shape, with every path existing and of the right kind. -/
theorem template_directory_is_rejected_witness :
    (mainProgram ⟨"mytemplates", "templatedata", none, some "generated"⟩
      (fun p => if p = "generated" then some ⟨false, true⟩
        else if p = "mytemplates" then some ⟨false, true⟩
        else if p = "templatedata" then some ⟨true, false⟩ else none)
      (fun _ _ => none)).2 ≠ 0 ∧
    Effect.errMsg ("Template path '" ++ "mytemplates" ++ "' is a directory")
      ∈ (mainProgram ⟨"mytemplates", "templatedata", none, some "generated"⟩
        (fun p => if p = "generated" then some ⟨false, true⟩
          else if p = "mytemplates" then some ⟨false, true⟩
          else if p = "templatedata" then some ⟨true, false⟩ else none)
        (fun _ _ => none)).1 :=
  ⟨(template_directory_is_rejected _ _ _ "generated" rfl rfl (by decide)
      (by decide) (by decide) (by decide)).1,
   (template_directory_is_rejected _ _ _ "generated" rfl rfl (by decide)
      (by decide) (by decide) (by decide)).2.1⟩

end Marko2Html
